import Mathlib

/-!
# Azure Firewall Analyzer — verification of the ordering engine and rule analyzer

Shallow embedding of the rule-processing core of the azure-firewall-analyzer
repository: the `RuleProcessor` class (rule ordering engine) and the
`RuleAnalyzer` class (duplicate / conflict detection), translated from the
TypeScript source (`src/utils/ruleProcessor.ts`, `src/utils/ruleAnalyzer.ts`).

Modelling decisions:
* TypeScript string-literal unions (`ruleType`, `ruleCategory`, conflict types,
  severities) are embedded as `String`, exactly as the source compares them.
* Optional array fields (`rule.sourceAddresses || []` in the source) are
  embedded as plain lists defaulting to `[]`; the analyzer's `|| []` maps
  `undefined` to the empty list, so the two are observationally equal.
* JavaScript `Array.prototype.sort` (stable, ES2019+) is embedded as
  `List.insertionSort`, which is stable; a comparator `cmp` is translated to
  the relation `cmp a b ≤ 0`.
* Presentation-only fields (`description` strings on conflicts and duplicate
  groups, export metadata) are omitted: no analyzed property reads them.
* JavaScript numbers holding priorities are embedded as `Int`; the processing
  counter, list indices and lengths as `Nat`.
-/

/-- A firewall rule as consumed by the processor: the `ruleType` discriminant
plus the addressing fields the processor copies and the analyzer reads.
The discriminant is a `String` because the processor receives whatever the
upstream parser produced (`NatRule`, `NetworkRule`, `ApplicationRule`, or —
for a malformed input — anything else). -/
structure FirewallRule where
  ruleType : String
  name : String
  ipProtocols : List String := []
  sourceAddresses : List String := []
  destinationAddresses : List String := []
  destinationPorts : List String := []
  targetFqdns : List String := []
  destinationFqdns : List String := []
deriving DecidableEq, Repr

/-- A rule collection: `name`, integer `priority`, ordered list of rules. -/
structure RuleCollection where
  name : String
  priority : Int
  rules : List FirewallRule
deriving DecidableEq, Repr

/-- A rule collection group: `name`, integer `priority`, ordered collections. -/
structure RuleCollectionGroup where
  name : String
  priority : Int
  ruleCollections : List RuleCollection
deriving DecidableEq, Repr

/-- A firewall policy: the list of rule collection groups (the only part of
the policy object the processor reads). -/
structure FirewallPolicy where
  ruleCollectionGroups : List RuleCollectionGroup
deriving DecidableEq, Repr

/-- A processed rule: the source rule's discriminant and addressing fields
plus the processing metadata attached by `RuleProcessor`. -/
structure ProcessedRule where
  ruleType : String
  name : String
  id : String
  collectionName : String
  collectionGroupName : String
  processingOrder : Nat
  ruleCategory : String
  groupPriority : Int
  collectionPriority : Int
  isParentPolicy : Bool
  ipProtocols : List String := []
  destinationPorts : List String := []
  destinationFqdns : List String := []
  targetFqdns : List String := []
  sourceAddresses : List String := []
  destinationAddresses : List String := []
deriving DecidableEq, Repr

/-- A processed rule collection: the original collection data plus the
processing metadata and the per-category `processedRules`. -/
structure ProcessedRuleCollection where
  name : String
  priority : Int
  rules : List FirewallRule
  id : String
  groupName : String
  groupPriority : Int
  ruleCategory : String
  processedRules : List ProcessedRule
deriving DecidableEq, Repr

/-- A processed rule collection group. -/
structure ProcessedRuleCollectionGroup where
  id : String
  name : String
  priority : Int
  ruleCollections : List RuleCollection
  processedCollections : List ProcessedRuleCollection
  isParentPolicy : Bool
deriving DecidableEq, Repr

namespace RuleProcessor

/-- The comparator of `processFirewallPolicy`'s group sort, as the relation
"sorts before or ties": parent groups first, then ascending priority.
Source comparator: `-1` when `a.isParent && !b.isParent`, `1` in the mirrored
case, otherwise `a.group.priority - b.group.priority`. -/
def groupSortLE (a b : RuleCollectionGroup × Bool) : Bool :=
  if a.2 && !b.2 then true
  else if !a.2 && b.2 then false
  else decide (a.1.priority ≤ b.1.priority)

/-- The per-category filter of `processRuleCollectionsByType`:
`switch (ruleCategory)` matching the rule's discriminant, `default: false`. -/
def matchesCategory (ruleCategory : String) (rule : FirewallRule) : Bool :=
  match ruleCategory with
  | "DNAT" => rule.ruleType == "NatRule"
  | "Network" => rule.ruleType == "NetworkRule"
  | "Application" => rule.ruleType == "ApplicationRule"
  | _ => false

/-- Build one processed rule (the body of the `relevantRules.map` in
`processRuleCollectionsByType`), copying the type-specific fields exactly as
the source does: `ipProtocols`/`destinationPorts` for Network and NAT rules,
`destinationFqdns` for Network rules, `targetFqdns` for Application rules,
and the common source/destination addresses for every rule. -/
def mkProcessedRule (rule : FirewallRule) (index : Nat) (collection : RuleCollection)
    (ruleCategory : String) (groupName : String) (groupPriority : Int)
    (isParentPolicy : Bool) (order : Nat) : ProcessedRule :=
  { ruleType := rule.ruleType
    name := rule.name
    id := "rule_" ++ groupName ++ "_" ++ collection.name ++ "_" ++ rule.name
            ++ "_" ++ toString index
    collectionName := collection.name
    collectionGroupName := groupName
    processingOrder := order
    ruleCategory := ruleCategory
    groupPriority := groupPriority
    collectionPriority := collection.priority
    isParentPolicy := isParentPolicy
    ipProtocols :=
      if rule.ruleType == "NetworkRule" || rule.ruleType == "NatRule"
      then rule.ipProtocols else []
    destinationPorts :=
      if rule.ruleType == "NetworkRule" || rule.ruleType == "NatRule"
      then rule.destinationPorts else []
    destinationFqdns :=
      if rule.ruleType == "NetworkRule" then rule.destinationFqdns else []
    targetFqdns :=
      if rule.ruleType == "ApplicationRule" then rule.targetFqdns else []
    sourceAddresses := rule.sourceAddresses
    destinationAddresses := rule.destinationAddresses }

/-- The inner `relevantRules.map((rule, index) => ...)` loop with the
`currentOrder++` counter threaded explicitly; returns the processed rules and
the counter value after the loop. -/
def processRulesAux (collection : RuleCollection) (ruleCategory : String)
    (groupName : String) (groupPriority : Int) (isParentPolicy : Bool) :
    List FirewallRule → Nat → Nat → List ProcessedRule × Nat
  | [], _, order => ([], order)
  | r :: rest, index, order =>
    let p := mkProcessedRule r index collection ruleCategory groupName
      groupPriority isParentPolicy order
    let rec_ := processRulesAux collection ruleCategory groupName groupPriority
      isParentPolicy rest (index + 1) (order + 1)
    (p :: rec_.1, rec_.2)

/-- The `sortedCollections.map(collection => ...)` loop of
`processRuleCollectionsByType`, with the shared `currentOrder` counter
threaded across collections. -/
def processCollectionsAux (ruleCategory : String) (groupName : String)
    (groupPriority : Int) (isParentPolicy : Bool) :
    List RuleCollection → Nat → List ProcessedRuleCollection
  | [], _ => []
  | c :: cs, order =>
    let relevantRules := c.rules.filter (matchesCategory ruleCategory)
    let processed := processRulesAux c ruleCategory groupName groupPriority
      isParentPolicy relevantRules 0 order
    { name := c.name
      priority := c.priority
      rules := c.rules
      id := "collection_" ++ groupName ++ "_" ++ c.name
      groupName := groupName
      groupPriority := groupPriority
      ruleCategory := ruleCategory
      processedRules := processed.1 }
      :: processCollectionsAux ruleCategory groupName groupPriority isParentPolicy cs processed.2

/-- Embedding of `RuleProcessor.processRuleCollectionsByType`: sort the bucket's
collections by ascending priority (stable), then map them emitting processed
rules with consecutive counter values starting at `startingOrder`. -/
def processRuleCollectionsByType (collections : List RuleCollection)
    (ruleCategory : String) (groupName : String) (groupPriority : Int)
    (isParentPolicy : Bool) (startingOrder : Nat) : List ProcessedRuleCollection :=
  let sortedCollections :=
    List.insertionSort (fun a b => a.priority ≤ b.priority) collections
  processCollectionsAux ruleCategory groupName groupPriority isParentPolicy
    sortedCollections startingOrder

/-- Embedding of `RuleProcessor.getMaxProcessingOrderFromCollections`: largest
`processingOrder` among the collections' processed rules, `0` when there is
none (`maxOrder` starts at `0` in the source). -/
def getMaxProcessingOrderFromCollections (collections : List ProcessedRuleCollection) : Nat :=
  collections.foldl
    (fun m c => c.processedRules.foldl (fun m r => max m r.processingOrder) m) 0

/-- Embedding of `RuleProcessor.processRuleCollectionGroup`: partition the group's
collections into the DNAT / Network / Application buckets (a collection joins
a bucket when it contains at least one rule of that kind), process the
buckets in that fixed order, and after each bucket reset the counter to
`getMaxProcessingOrderFromCollections(bucket) + 1`. -/
def processRuleCollectionGroup (group : RuleCollectionGroup)
    (isParentPolicy : Bool) (startingOrder : Nat) : ProcessedRuleCollectionGroup :=
  let dnatCollections :=
    group.ruleCollections.filter (fun c => c.rules.any (fun r => r.ruleType == "NatRule"))
  let networkCollections :=
    group.ruleCollections.filter (fun c => c.rules.any (fun r => r.ruleType == "NetworkRule"))
  let applicationCollections :=
    group.ruleCollections.filter (fun c => c.rules.any (fun r => r.ruleType == "ApplicationRule"))
  let processedDnatCollections := processRuleCollectionsByType dnatCollections
    "DNAT" group.name group.priority isParentPolicy startingOrder
  let orderAfterDnat := getMaxProcessingOrderFromCollections processedDnatCollections + 1
  let processedNetworkCollections := processRuleCollectionsByType networkCollections
    "Network" group.name group.priority isParentPolicy orderAfterDnat
  let orderAfterNetwork := getMaxProcessingOrderFromCollections processedNetworkCollections + 1
  let processedApplicationCollections := processRuleCollectionsByType applicationCollections
    "Application" group.name group.priority isParentPolicy orderAfterNetwork
  { id := "group_" ++ group.name
    name := group.name
    priority := group.priority
    ruleCollections := group.ruleCollections
    processedCollections :=
      processedDnatCollections ++ processedNetworkCollections ++ processedApplicationCollections
    isParentPolicy := isParentPolicy }

/-- Embedding of `RuleProcessor.getMaxProcessingOrder`: same maximum, over one group. -/
def getMaxProcessingOrder (group : ProcessedRuleCollectionGroup) : Nat :=
  getMaxProcessingOrderFromCollections group.processedCollections

/-- The `allGroups.map` loop of `processFirewallPolicy`, threading the
`globalProcessingOrder` variable: each group is processed from the current
counter and the counter is then set to the group's maximum order plus one. -/
def processGroupsAux : List (RuleCollectionGroup × Bool) → Nat →
    List ProcessedRuleCollectionGroup
  | [], _ => []
  | (g, isParent) :: rest, order =>
    let pg := processRuleCollectionGroup g isParent order
    pg :: processGroupsAux rest (getMaxProcessingOrder pg + 1)

/-- Embedding of `RuleProcessor.processFirewallPolicy`: tag parent groups, sort all groups
with the parent-first / ascending-priority comparator (stable), and process
them with the global counter starting at `1`. -/
def processFirewallPolicy (policy : FirewallPolicy)
    (parentPolicy : Option FirewallPolicy) : List ProcessedRuleCollectionGroup :=
  let parentGroups := match parentPolicy with
    | some p => p.ruleCollectionGroups.map (fun g => (g, true))
    | none => []
  let allGroups := parentGroups ++ policy.ruleCollectionGroups.map (fun g => (g, false))
  let sortedGroups := List.insertionSort (fun a b => groupSortLE a b = true) allGroups
  processGroupsAux sortedGroups 1

/-- Statistics record returned by `getProcessingStatistics` (the
`priorityRanges` field, which uses floating-point infinities and is read by
no analyzed property, is omitted). -/
structure ProcessingStatistics where
  totalGroups : Nat
  totalCollections : Nat
  totalRules : Nat
  parentPolicyGroups : Nat
  childPolicyGroups : Nat
  rulesByCategoryDNAT : Nat
  rulesByCategoryNetwork : Nat
  rulesByCategoryApplication : Nat
deriving DecidableEq, Repr

/-- Count the processed rules of the groups whose `ruleCategory` equals
`cat` (the `stats.rulesByCategory[rule.ruleCategory]++` accumulation). -/
def countRulesByCategory (groups : List ProcessedRuleCollectionGroup) (cat : String) : Nat :=
  (groups.map (fun g =>
    (g.processedCollections.map (fun c =>
      (c.processedRules.filter (fun r => r.ruleCategory == cat)).length)).sum)).sum

/-- Embedding of `RuleProcessor.getProcessingStatistics`. -/
def getProcessingStatistics (groups : List ProcessedRuleCollectionGroup) : ProcessingStatistics :=
  { totalGroups := groups.length
    totalCollections := (groups.map (fun g => g.processedCollections.length)).sum
    totalRules := (groups.map (fun g =>
      (g.processedCollections.map (fun c => c.processedRules.length)).sum)).sum
    parentPolicyGroups := (groups.filter (fun g => g.isParentPolicy)).length
    childPolicyGroups := (groups.filter (fun g => !g.isParentPolicy)).length
    rulesByCategoryDNAT := countRulesByCategory groups "DNAT"
    rulesByCategoryNetwork := countRulesByCategory groups "Network"
    rulesByCategoryApplication := countRulesByCategory groups "Application" }

end RuleProcessor

/-- All processed rules of the output in emission order (the
`getAllRulesFlat` traversal of the analyzer: groups, then collections, then
rules, in list order, without re-sorting). -/
def getAllRulesFlat (groups : List ProcessedRuleCollectionGroup) : List ProcessedRule :=
  (groups.map (fun g => (g.processedCollections.map (fun c => c.processedRules)).flatten)).flatten

/-- The `processingOrder` values of the whole output in emission order. -/
def emissionOrders (groups : List ProcessedRuleCollectionGroup) : List Nat :=
  (getAllRulesFlat groups).map (fun r => r.processingOrder)

/-- JavaScript `String.prototype.toLowerCase`, modelled character-wise
(structurally, so that the kernel can evaluate it). -/
def jsToLower (s : String) : String := ⟨s.data.map Char.toLower⟩

/-- JavaScript `String.prototype.trim`: drop whitespace from both ends. -/
def jsTrim (s : String) : String :=
  ⟨((s.data.dropWhile Char.isWhitespace).reverse.dropWhile Char.isWhitespace).reverse⟩

/-- Lexicographic comparison of character lists by code point — the order
used by JavaScript's default `Array.prototype.sort` comparator on strings. -/
def charListLE : List Char → List Char → Bool
  | [], _ => true
  | _ :: _, [] => false
  | a :: as, b :: bs =>
    if a.toNat < b.toNat then true
    else if b.toNat < a.toNat then false
    else charListLE as bs

/-- String comparison for the default JavaScript sort. -/
def strLE (a b : String) : Bool := charListLE a.data b.data

/-- Sort a list of strings as JavaScript `array.sort()` does. -/
def sortStrings (l : List String) : List String :=
  List.insertionSort (fun a b => strLE a b = true) l

namespace RuleAnalyzer

/-- The normalized traffic fingerprint of a rule
(`RuleAnalyzer.RuleFingerprint`). -/
structure RuleFingerprint where
  sourceAddresses : List String
  destinationAddresses : List String
  destinationPorts : List String
  ipProtocols : List String
  targetFqdns : List String
  ruleType : String
deriving DecidableEq, Repr

/-- Embedding of `RuleAnalyzer.normalizeAddresses`: lowercase, trim, sort. -/
def normalizeAddresses (addresses : List String) : List String :=
  sortStrings (addresses.map (fun addr => jsTrim (jsToLower addr)))

/-- Embedding of `RuleAnalyzer.normalizePorts`: trim, sort (the source does not lowercase
port strings). -/
def normalizePorts (ports : List String) : List String :=
  sortStrings (ports.map (fun port => jsTrim port))

/-- Embedding of `RuleAnalyzer.normalizeProtocols`: lowercase, trim, sort. -/
def normalizeProtocols (protocols : List String) : List String :=
  sortStrings (protocols.map (fun proto => jsTrim (jsToLower proto)))

/-- Embedding of `RuleAnalyzer.normalizeFqdns`: lowercase, trim, sort. -/
def normalizeFqdns (fqdns : List String) : List String :=
  sortStrings (fqdns.map (fun fqdn => jsTrim (jsToLower fqdn)))

/-- Embedding of `RuleAnalyzer.generateRuleFingerprint`. -/
def generateRuleFingerprint (rule : ProcessedRule) : RuleFingerprint :=
  { sourceAddresses := normalizeAddresses rule.sourceAddresses
    destinationAddresses := normalizeAddresses rule.destinationAddresses
    destinationPorts := normalizePorts rule.destinationPorts
    ipProtocols := normalizeProtocols rule.ipProtocols
    targetFqdns := normalizeFqdns rule.targetFqdns
    ruleType := rule.ruleType }

/-- Character-list model of JavaScript `String.prototype.includes`:
`needle` occurs contiguously inside the haystack. -/
def charsInclude (needle : List Char) : List Char → Bool
  | [] => needle.isEmpty
  | c :: rest => needle.isPrefixOf (c :: rest) || charsInclude needle rest

/-- JavaScript `s.includes(sub)` on strings. -/
def strIncludes (s sub : String) : Bool :=
  charsInclude sub.data s.data

/-- Embedding of `RuleAnalyzer.getRuleAction`: the heuristic action inference — `"Deny"`
when the lowercased rule name or collection name contains `"deny"` or
`"block"`, otherwise `"Allow"`. -/
def getRuleAction (rule : ProcessedRule) : String :=
  let ruleName := jsToLower rule.name
  let collectionName := jsToLower rule.collectionName
  if strIncludes ruleName "deny" || strIncludes ruleName "block" ||
     strIncludes collectionName "deny" || strIncludes collectionName "block"
  then "Deny"
  else "Allow"

/-- Embedding of `RuleAnalyzer.hasArrayOverlap`: an empty array on either side means
"any" and overlaps with everything; otherwise some shared element. -/
def hasArrayOverlap (arr1 arr2 : List String) : Bool :=
  if arr1.isEmpty || arr2.isEmpty then true
  else arr1.any (fun item => arr2.contains item)

/-- Embedding of `RuleAnalyzer.hasOverlappingTrafficPattern`: all four dimension tests —
source addresses, destination addresses together with target FQDNs,
destination ports, ip protocols. -/
def hasOverlappingTrafficPattern (fp1 fp2 : RuleFingerprint) : Bool :=
  hasArrayOverlap fp1.sourceAddresses fp2.sourceAddresses &&
  hasArrayOverlap (fp1.destinationAddresses ++ fp1.targetFqdns)
    (fp2.destinationAddresses ++ fp2.targetFqdns) &&
  hasArrayOverlap fp1.destinationPorts fp2.destinationPorts &&
  hasArrayOverlap fp1.ipProtocols fp2.ipProtocols

/-- Embedding of `RuleAnalyzer.arraysEqual`: equal length and every element of the first
array is contained in the second. -/
def arraysEqual (arr1 arr2 : List String) : Bool :=
  arr1.length == arr2.length && arr1.all (fun item => arr2.contains item)

/-- Embedding of `RuleAnalyzer.areTrafficPatternsIdentical`: `arraysEqual` on the five
list components of the fingerprints. -/
def areTrafficPatternsIdentical (fp1 fp2 : RuleFingerprint) : Bool :=
  arraysEqual fp1.sourceAddresses fp2.sourceAddresses &&
  arraysEqual fp1.destinationAddresses fp2.destinationAddresses &&
  arraysEqual fp1.targetFqdns fp2.targetFqdns &&
  arraysEqual fp1.destinationPorts fp2.destinationPorts &&
  arraysEqual fp1.ipProtocols fp2.ipProtocols

/-- Embedding of `RuleAnalyzer.detectConflictBetweenRules`, returning the pair
(conflict type, severity) or `none` (the human-readable description string
is omitted). -/
def detectConflictBetweenRules (rule1 rule2 : ProcessedRule) :
    Option (String × String) :=
  if rule1.ruleType ≠ rule2.ruleType then none
  else
    let fingerprint1 := generateRuleFingerprint rule1
    let fingerprint2 := generateRuleFingerprint rule2
    if !hasOverlappingTrafficPattern fingerprint1 fingerprint2 then none
    else if (rule1.ruleType == "NetworkRule" || rule1.ruleType == "ApplicationRule") &&
            getRuleAction rule1 ≠ getRuleAction rule2 then
      some ("allow_deny_conflict", "high")
    else if rule1.processingOrder < rule2.processingOrder &&
            areTrafficPatternsIdentical fingerprint1 fingerprint2 then
      some ("priority_conflict", "medium")
    else
      some ("overlapping_rules", "low")

/-- A reported conflict: type, the ordered pair of rules, severity
(`id` counter and `description` omitted). -/
structure RuleConflict where
  conflictType : String
  primary : ProcessedRule
  conflicting : ProcessedRule
  severity : String
deriving DecidableEq, Repr

/-- The nested `for i / for j > i` loops of `findRuleConflicts` over the
already-sorted rule list: for each earlier rule, compare against every later
rule, recording at most one conflict per pair. -/
def conflictScan : List ProcessedRule → List RuleConflict
  | [] => []
  | r :: rest =>
    (rest.filterMap (fun r2 =>
      (detectConflictBetweenRules r r2).map (fun c =>
        { conflictType := c.1, primary := r, conflicting := r2, severity := c.2 })))
      ++ conflictScan rest

/-- Embedding of `RuleAnalyzer.findRuleConflicts`: sort by `processingOrder` (stable),
then scan all pairs in order. -/
def findRuleConflicts (rules : List ProcessedRule) : List RuleConflict :=
  let sortedRules :=
    List.insertionSort (fun a b => a.processingOrder ≤ b.processingOrder) rules
  conflictScan sortedRules

/-- Embedding of `RuleAnalyzer.areRulesExactDuplicates`: fewer than two rules is never an
exact duplicate; otherwise all rules share the first rule's name and
collection name. -/
def areRulesExactDuplicates (rules : List ProcessedRule) : Bool :=
  if rules.length < 2 then false
  else
    match rules with
    | [] => false
    | firstRule :: _ =>
      rules.all (fun rule =>
        rule.name == firstRule.name && rule.collectionName == firstRule.collectionName)

/-- A duplicate group: the shared fingerprint, its rules, and the
classification (`"exact_duplicate"` or `"similar_rules"`); the `id` counter
and `description` are omitted. -/
structure DuplicateGroup where
  fingerprint : RuleFingerprint
  rules : List ProcessedRule
  type : String
deriving DecidableEq, Repr

/-- Append a rule under its fingerprint key, preserving first-insertion key
order (the JavaScript `Map` of `findDuplicateRules`; `JSON.stringify` of a
fingerprint is injective, so keying by the fingerprint itself is faithful). -/
def addToGroups (groups : List (RuleFingerprint × List ProcessedRule))
    (fp : RuleFingerprint) (r : ProcessedRule) :
    List (RuleFingerprint × List ProcessedRule) :=
  match groups with
  | [] => [(fp, [r])]
  | (k, rs) :: rest =>
    if k = fp then (k, rs ++ [r]) :: rest else (k, rs) :: addToGroups rest fp r

/-- Group all rules by fingerprint, in key-insertion order. -/
def groupByFingerprint (rules : List ProcessedRule) :
    List (RuleFingerprint × List ProcessedRule) :=
  rules.foldl (fun gs r => addToGroups gs (generateRuleFingerprint r) r) []

/-- Embedding of `RuleAnalyzer.findDuplicateRules`: keep the fingerprint groups with more
than one rule and classify each. -/
def findDuplicateRules (rules : List ProcessedRule) : List DuplicateGroup :=
  ((groupByFingerprint rules).filter (fun g => 1 < g.2.length)).map (fun g =>
    { fingerprint := g.1
      rules := g.2
      type := if areRulesExactDuplicates g.2 then "exact_duplicate" else "similar_rules" })

/-- The `statistics` record of `analyzeRules`. -/
structure AnalysisStatistics where
  totalRules : Nat
  duplicateRules : Nat
  conflictingRules : Nat
  duplicateGroups : Nat
  conflicts : Nat
deriving DecidableEq, Repr

/-- The result record of `analyzeRules`. -/
structure RuleAnalysis where
  duplicates : List DuplicateGroup
  conflicts : List RuleConflict
  statistics : AnalysisStatistics
deriving DecidableEq, Repr

/-- Embedding of `RuleAnalyzer.analyzeRules`: flatten the groups, find duplicates and
conflicts, and aggregate the statistics; `conflictingRules` is the size of
the set of rule ids appearing as primary or conflicting (`new Set(...)`,
modelled by `List.dedup`). -/
def analyzeRules (groups : List ProcessedRuleCollectionGroup) : RuleAnalysis :=
  let allRules := getAllRulesFlat groups
  let duplicates := findDuplicateRules allRules
  let conflicts := findRuleConflicts allRules
  let duplicateRulesCount := (duplicates.map (fun g => g.rules.length)).sum
  let conflictingRulesCount :=
    ((conflicts.map (fun c => c.primary.id)) ++ (conflicts.map (fun c => c.conflicting.id))).dedup.length
  { duplicates := duplicates
    conflicts := conflicts
    statistics :=
      { totalRules := allRules.length
        duplicateRules := duplicateRulesCount
        conflictingRules := conflictingRulesCount
        duplicateGroups := duplicates.length
        conflicts := conflicts.length } }

end RuleAnalyzer

/-!
## Concrete inputs

Concrete policies and rules used to evaluate the embedded functions:
the end-to-end scenario B policy of the specification (mirroring the
repository's `complex-policy.json` fixture), and small rule pairs
exercising the analyzer.
-/

/-- The NAT rule of scenario B's `DNATRules` collection. -/
def natRuleB : FirewallRule :=
  { ruleType := "NatRule", name := "WebServerNAT", ipProtocols := ["TCP"],
    sourceAddresses := ["*"], destinationAddresses := ["203.0.113.10"],
    destinationPorts := ["8080"] }

/-- First Network rule of scenario B. -/
def netRuleB1 : FirewallRule :=
  { ruleType := "NetworkRule", name := "AllowWeb", ipProtocols := ["TCP"],
    sourceAddresses := ["10.0.0.0/8"], destinationAddresses := ["*"],
    destinationPorts := ["80", "443"] }

/-- Second Network rule of scenario B. -/
def netRuleB2 : FirewallRule :=
  { ruleType := "NetworkRule", name := "AllowDNS", ipProtocols := ["UDP"],
    sourceAddresses := ["10.0.0.0/8"], destinationAddresses := ["*"],
    destinationPorts := ["53"] }

/-- The Application rule of scenario B. -/
def appRuleB : FirewallRule :=
  { ruleType := "ApplicationRule", name := "AllowMicrosoft",
    sourceAddresses := ["10.0.0.0/8"],
    targetFqdns := ["*.microsoft.com", "*.windows.com"] }

/-- The deny Network rule of scenario B's low-priority group. -/
def denyRuleB : FirewallRule :=
  { ruleType := "NetworkRule", name := "DenyAll", ipProtocols := ["Any"],
    sourceAddresses := ["*"], destinationAddresses := ["*"],
    destinationPorts := ["*"] }

/-- The scenario B policy: `HighPriorityGroup` (priority 100) with one NAT
collection (1 rule), one Network collection (2 rules) and one Application
collection (1 rule); `LowPriorityGroup` (priority 1000) with one Network
collection holding 1 deny rule. -/
def scenarioB : FirewallPolicy :=
  { ruleCollectionGroups :=
      [ { name := "HighPriorityGroup", priority := 100,
          ruleCollections :=
            [ { name := "DNATRules", priority := 100, rules := [natRuleB] },
              { name := "NetworkRules", priority := 200, rules := [netRuleB1, netRuleB2] },
              { name := "ApplicationRules", priority := 300, rules := [appRuleB] } ] },
        { name := "LowPriorityGroup", priority := 1000,
          ruleCollections :=
            [ { name := "DenyRules", priority := 100, rules := [denyRuleB] } ] } ] }

/-- A policy whose single group has one NAT collection with two rules and
one Application collection with one rule, but no Network rules. -/
def natAppPolicy : FirewallPolicy :=
  { ruleCollectionGroups :=
      [ { name := "MixedGroup", priority := 100,
          ruleCollections :=
            [ { name := "NatColl", priority := 100,
                rules := [ { natRuleB with name := "Nat1" },
                           { natRuleB with name := "Nat2" } ] },
              { name := "AppColl", priority := 200,
                rules := [appRuleB] } ] } ] }

/-- A policy containing a single rule whose kind discriminant is not one of
the three recognized kinds. -/
def unknownKindPolicy : FirewallPolicy :=
  { ruleCollectionGroups :=
      [ { name := "G", priority := 100,
          ruleCollections :=
            [ { name := "C", priority := 100,
                rules := [ { ruleType := "FutureRule", name := "mystery",
                             sourceAddresses := ["*"],
                             destinationAddresses := ["*"] } ] } ] } ] }

/-- A policy with one group, one Network collection and a single rule
(scenario A's shape), used as a witness input. -/
def minimalPolicy : FirewallPolicy :=
  { ruleCollectionGroups :=
      [ { name := "TestRuleCollectionGroup", priority := 200,
          ruleCollections :=
            [ { name := "TestNetworkRuleCollection", priority := 1000,
                rules := [ { ruleType := "NetworkRule", name := "AllowHTTP",
                             ipProtocols := ["TCP"],
                             sourceAddresses := ["10.0.0.0/8"],
                             destinationAddresses := ["*"],
                             destinationPorts := ["80"] } ] } ] } ] }

/-- Build a processed Network-category rule directly (analyzer inputs). -/
def mkAnalyzerRule (n cn rt : String) (ord : Nat)
    (sa da dp ip fq : List String) : ProcessedRule :=
  { ruleType := rt, name := n, id := "id_" ++ n, collectionName := cn,
    collectionGroupName := "G", processingOrder := ord, ruleCategory := "Network",
    groupPriority := 100, collectionPriority := 100, isParentPolicy := false,
    ipProtocols := ip, destinationPorts := dp, destinationFqdns := [],
    targetFqdns := fq, sourceAddresses := sa, destinationAddresses := da }

/-- Network rule whose source list `["a", "a", "b"]` is `arraysEqual` — but
not equal — to `c6rule2`'s. -/
def c6rule1 : ProcessedRule :=
  mkAnalyzerRule "r1" "c1" "NetworkRule" 1 ["a", "a", "b"] [] [] [] []

/-- Network rule whose source list is `["a", "b", "b"]`. -/
def c6rule2 : ProcessedRule :=
  mkAnalyzerRule "r2" "c2" "NetworkRule" 2 ["a", "b", "b"] [] [] [] []

/-- Network rule with destination port `"P"` (upper case). -/
def c7rule1 : ProcessedRule :=
  mkAnalyzerRule "p1" "c1" "NetworkRule" 1 ["10.0.0.1"] ["*"] ["P"] ["tcp"] []

/-- The same rule with destination port `"p"` (lower case). -/
def c7rule2 : ProcessedRule :=
  mkAnalyzerRule "p1" "c1" "NetworkRule" 2 ["10.0.0.1"] ["*"] ["p"] ["tcp"] []

/-- The `"AllowWeb"` Network rule (inferred action `Allow`). -/
def allowWebRule : ProcessedRule :=
  mkAnalyzerRule "AllowWeb" "WebRules" "NetworkRule" 1
    ["10.0.0.0/8"] ["*"] ["80"] ["TCP"] []

/-- The `"DenyWeb"` Network rule with identical addressing (inferred `Deny`). -/
def denyWebRule : ProcessedRule :=
  mkAnalyzerRule "DenyWeb" "WebRules" "NetworkRule" 2
    ["10.0.0.0/8"] ["*"] ["80"] ["TCP"] []

/-- Two Network rules with disjoint, non-empty source addresses
(not traffic-overlapping). -/
def disjointRule1 : ProcessedRule :=
  mkAnalyzerRule "n1" "c1" "NetworkRule" 1 ["10.0.0.1"] ["*"] ["80"] ["TCP"] []

/-- Second rule of the non-overlapping pair. -/
def disjointRule2 : ProcessedRule :=
  mkAnalyzerRule "n2" "c1" "NetworkRule" 2 ["192.168.0.1"] ["*"] ["80"] ["TCP"] []

/-- A rule equal to `disjointRule1` except for its processing order, giving
a duplicate pair for the aggregate-statistics witness. -/
def dupRule2 : ProcessedRule :=
  mkAnalyzerRule "n1" "c1" "NetworkRule" 2 ["10.0.0.1"] ["*"] ["80"] ["TCP"] []

/-- A processed group holding the duplicate pair, as analyzer input. -/
def dupGroup : ProcessedRuleCollectionGroup :=
  { id := "g", name := "G", priority := 100, ruleCollections := [],
    processedCollections :=
      [ { name := "c1", priority := 100, rules := [], id := "cc", groupName := "G",
          groupPriority := 100, ruleCategory := "Network",
          processedRules := [disjointRule1, dupRule2] } ],
    isParentPolicy := false }

/-- The fingerprint shared by `disjointRule1` and `dupRule2`. -/
def dupFingerprint : RuleAnalyzer.RuleFingerprint :=
  { sourceAddresses := ["10.0.0.1"], destinationAddresses := ["*"],
    destinationPorts := ["80"], ipProtocols := ["tcp"], targetFqdns := [],
    ruleType := "NetworkRule" }

/-- The duplicate group the analyzer reports for `dupGroup`. -/
def dupGroupValue : RuleAnalyzer.DuplicateGroup :=
  { fingerprint := dupFingerprint,
    rules := [disjointRule1, dupRule2],
    type := "exact_duplicate" }

/-- The single processed rule the engine emits for `minimalPolicy`. -/
def minimalProcessedRule : ProcessedRule :=
  { ruleType := "NetworkRule", name := "AllowHTTP",
    id := "rule_TestRuleCollectionGroup_TestNetworkRuleCollection_AllowHTTP_0",
    collectionName := "TestNetworkRuleCollection",
    collectionGroupName := "TestRuleCollectionGroup",
    processingOrder := 1, ruleCategory := "Network",
    groupPriority := 200, collectionPriority := 1000, isParentPolicy := false,
    ipProtocols := ["TCP"], destinationPorts := ["80"], destinationFqdns := [],
    targetFqdns := [], sourceAddresses := ["10.0.0.0/8"],
    destinationAddresses := ["*"] }

/-- The processed parent rule of the one-group-one-rule parent/child pair
(`natRuleB` in group `PG` priority 100, collection `PC` priority 100). -/
def c8ParentProcessed : ProcessedRule :=
  { ruleType := "NatRule", name := "WebServerNAT", id := "rule_PG_PC_WebServerNAT_0",
    collectionName := "PC", collectionGroupName := "PG", processingOrder := 1,
    ruleCategory := "DNAT", groupPriority := 100, collectionPriority := 100,
    isParentPolicy := true, ipProtocols := ["TCP"], destinationPorts := ["8080"],
    destinationFqdns := [], targetFqdns := [], sourceAddresses := ["*"],
    destinationAddresses := ["203.0.113.10"] }

/-- The processed child rule of the same pair (`netRuleB1` in group `CG`
priority 200, collection `CC` priority 200). -/
def c8ChildProcessed : ProcessedRule :=
  { ruleType := "NetworkRule", name := "AllowWeb", id := "rule_CG_CC_AllowWeb_0",
    collectionName := "CC", collectionGroupName := "CG", processingOrder := 1,
    ruleCategory := "Network", groupPriority := 200, collectionPriority := 200,
    isParentPolicy := false, ipProtocols := ["TCP"], destinationPorts := ["80", "443"],
    destinationFqdns := [], targetFqdns := [], sourceAddresses := ["10.0.0.0/8"],
    destinationAddresses := ["*"] }

/-!
## Properties of the string comparison and the sorts
-/

/-- Totality of the code-point comparison. -/
theorem charListLE_total : ∀ a b : List Char, charListLE a b = true ∨ charListLE b a = true
  | [], _ => Or.inl rfl
  | _ :: _, [] => Or.inr rfl
  | a :: as, b :: bs => by
    simp only [charListLE]
    rcases Nat.lt_trichotomy a.toNat b.toNat with h | h | h
    · left; simp [h]
    · have h1 : ¬ a.toNat < b.toNat := by omega
      have h2 : ¬ b.toNat < a.toNat := by omega
      rcases charListLE_total as bs with ih | ih
      · left; simp [h1, h2, ih]
      · right; simp [h1, h2, ih]
    · right; simp [h, Nat.lt_asymm h]

/-- Transitivity of the code-point comparison. -/
theorem charListLE_trans : ∀ a b c : List Char,
    charListLE a b = true → charListLE b c = true → charListLE a c = true
  | [], _, _, _, _ => rfl
  | _ :: _, [], _, h, _ => by simp [charListLE] at h
  | _ :: _, _ :: _, [], _, h => by simp [charListLE] at h
  | a :: as, b :: bs, c :: cs, hab, hbc => by
    simp only [charListLE] at hab hbc ⊢
    rcases Nat.lt_trichotomy a.toNat c.toNat with h | h | h
    · simp [h]
    · have h1 : ¬ a.toNat < c.toNat := by omega
      have h2 : ¬ c.toNat < a.toNat := by omega
      simp only [h1, h2, if_neg, if_false, ite_false]
      by_cases hab1 : a.toNat < b.toNat
      · by_cases hbc1 : b.toNat < c.toNat
        · omega
        · by_cases hbc2 : c.toNat < b.toNat
          · simp [hbc1, hbc2] at hbc
          · omega
      · by_cases hab2 : b.toNat < a.toNat
        · simp [hab1, hab2] at hab
        · have hbc1 : ¬ b.toNat < c.toNat := by omega
          have hbc2 : ¬ c.toNat < b.toNat := by omega
          simp only [hab1, hab2, ite_false, if_neg] at hab
          simp only [hbc1, hbc2, ite_false, if_neg] at hbc
          simp [charListLE_trans as bs cs hab hbc]
    · exfalso
      by_cases hab1 : a.toNat < b.toNat
      · by_cases hbc1 : b.toNat < c.toNat
        · omega
        · by_cases hbc2 : c.toNat < b.toNat
          · simp [hbc1, hbc2] at hbc
          · omega
      · by_cases hab2 : b.toNat < a.toNat
        · simp [hab1, hab2] at hab
        · by_cases hbc1 : b.toNat < c.toNat
          · omega
          · by_cases hbc2 : c.toNat < b.toNat
            · simp [hbc1, hbc2] at hbc
            · omega

/-- Antisymmetry of the code-point comparison. -/
theorem charListLE_antisymm : ∀ a b : List Char,
    charListLE a b = true → charListLE b a = true → a = b
  | [], [], _, _ => rfl
  | [], _ :: _, _, h => by simp [charListLE] at h
  | _ :: _, [], h, _ => by simp [charListLE] at h
  | a :: as, b :: bs, hab, hba => by
    simp only [charListLE] at hab hba
    by_cases h1 : a.toNat < b.toNat
    · simp [h1, Nat.lt_asymm h1] at hba
    · by_cases h2 : b.toNat < a.toNat
      · simp [h1, h2] at hab
      · have hn : a.toNat = b.toNat := by omega
        have hc : a = b := Char.eq_of_val_eq (UInt32.ext hn)
        simp only [h1, h2, ite_false, if_neg] at hab hba
        rw [hc, charListLE_antisymm as bs hab hba]

/-- Totality of the string comparison. -/
theorem strLE_total (a b : String) : strLE a b = true ∨ strLE b a = true :=
  charListLE_total a.data b.data

/-- Transitivity of the string comparison. -/
theorem strLE_trans (a b c : String) (hab : strLE a b = true) (hbc : strLE b c = true) :
    strLE a c = true :=
  charListLE_trans a.data b.data c.data hab hbc

/-- Antisymmetry of the string comparison. -/
theorem strLE_antisymm (a b : String) (hab : strLE a b = true) (hba : strLE b a = true) :
    a = b := by
  cases a
  cases b
  exact congrArg String.mk (charListLE_antisymm _ _ hab hba)

/-- Sorting by the JavaScript string order maps permutations to equal
results: the sorted output is a canonical representative of the multiset. -/
theorem sortStrings_eq_of_perm {l1 l2 : List String} (h : List.Perm l1 l2) :
    sortStrings l1 = sortStrings l2 := by
  haveI : IsTotal String (fun a b => strLE a b = true) := ⟨strLE_total⟩
  haveI : IsTrans String (fun a b => strLE a b = true) := ⟨fun a b c => strLE_trans a b c⟩
  haveI : IsAntisymm String (fun a b => strLE a b = true) := ⟨strLE_antisymm⟩
  exact List.eq_of_perm_of_sorted
    (((List.perm_insertionSort _ l1).trans h).trans (List.perm_insertionSort _ l2).symm)
    (List.sorted_insertionSort _ l1) (List.sorted_insertionSort _ l2)

/-!
## Helper lemmas about the analyzer and the processor
-/

/-- The pair scan records at most one conflict per unordered pair. -/
theorem conflictScan_length_le : ∀ l : List ProcessedRule,
    (RuleAnalyzer.conflictScan l).length ≤ l.length.choose 2
  | [] => by simp [RuleAnalyzer.conflictScan]
  | r :: rest => by
    simp only [RuleAnalyzer.conflictScan, List.length_append]
    have h1 : (rest.filterMap (fun r2 =>
        (RuleAnalyzer.detectConflictBetweenRules r r2).map (fun c =>
          ({ conflictType := c.1, primary := r, conflicting := r2,
             severity := c.2 } : RuleAnalyzer.RuleConflict)))).length ≤ rest.length :=
      List.length_filterMap_le _ _
    have h2 := conflictScan_length_le rest
    have h3 : (r :: rest).length.choose 2 = rest.length + rest.length.choose 2 := by
      simp [List.length_cons, Nat.choose_succ_succ, Nat.choose_one_right]
    simp only [List.length_cons] at h3 ⊢
    omega

/-- Every reported duplicate group has at least two member rules. -/
theorem two_le_of_mem_findDuplicateRules {rules : List ProcessedRule}
    {g : RuleAnalyzer.DuplicateGroup} (h : g ∈ RuleAnalyzer.findDuplicateRules rules) :
    2 ≤ g.rules.length := by
  simp only [RuleAnalyzer.findDuplicateRules, List.mem_map, List.mem_filter] at h
  obtain ⟨p, ⟨hp, hlen⟩, rfl⟩ := h
  simpa using hlen

/-- A list of groups each holding at least two rules has at least twice as
many rules as groups. -/
theorem two_mul_length_le_sum : ∀ l : List RuleAnalyzer.DuplicateGroup,
    (∀ g ∈ l, 2 ≤ g.rules.length) → 2 * l.length ≤ (l.map (fun g => g.rules.length)).sum
  | [], _ => by simp
  | g :: rest, h => by
    simp only [List.map_cons, List.sum_cons, List.length_cons]
    have h1 := h g (by simp)
    have h2 := two_mul_length_le_sum rest (fun x hx => h x (by simp [hx]))
    omega

/-- A rule passing any branch of the category filter has one of the three
recognized kind discriminants. -/
theorem ruleType_of_matchesCategory {cat : String} {r : FirewallRule}
    (h : RuleProcessor.matchesCategory cat r = true) :
    r.ruleType = "NatRule" ∨ r.ruleType = "NetworkRule" ∨ r.ruleType = "ApplicationRule" := by
  unfold RuleProcessor.matchesCategory at h
  split at h
  · exact Or.inl (by simpa using h)
  · exact Or.inr (Or.inl (by simpa using h))
  · exact Or.inr (Or.inr (by simpa using h))
  · cases h

/-- A processed rule emitted by the per-collection loop keeps the kind
discriminant of some input rule. -/
theorem mem_processRulesAux_ruleType (c : RuleCollection) (cat gn : String) (gp : Int)
    (isP : Bool) :
    ∀ (rules : List FirewallRule) (idx ord : Nat) {pr : ProcessedRule},
      pr ∈ (RuleProcessor.processRulesAux c cat gn gp isP rules idx ord).1 →
      ∃ r ∈ rules, pr.ruleType = r.ruleType := by
  intro rules
  induction rules with
  | nil => intro idx ord pr h; simp [RuleProcessor.processRulesAux] at h
  | cons r rest ih =>
    intro idx ord pr h
    simp only [RuleProcessor.processRulesAux, List.mem_cons] at h
    rcases h with h | h
    · exact ⟨r, by simp, by simp [h, RuleProcessor.mkProcessedRule]⟩
    · obtain ⟨r2, hr2, hty⟩ := ih (idx + 1) (ord + 1) h
      exact ⟨r2, by simp [hr2], hty⟩

/-- A processed rule emitted by the bucket loop comes from an input rule
that passed the category filter. -/
theorem mem_processCollectionsAux_ruleType (cat gn : String) (gp : Int) (isP : Bool) :
    ∀ (cs : List RuleCollection) (ord : Nat) {pc : ProcessedRuleCollection}
      {pr : ProcessedRule},
      pc ∈ RuleProcessor.processCollectionsAux cat gn gp isP cs ord →
      pr ∈ pc.processedRules →
      ∃ r : FirewallRule, RuleProcessor.matchesCategory cat r = true ∧
        pr.ruleType = r.ruleType := by
  intro cs
  induction cs with
  | nil => intro ord pc pr h _; simp [RuleProcessor.processCollectionsAux] at h
  | cons c rest ih =>
    intro ord pc pr hpc hpr
    simp only [RuleProcessor.processCollectionsAux, List.mem_cons] at hpc
    rcases hpc with hpc | hpc
    · subst hpc
      simp only at hpr
      obtain ⟨r, hr, hty⟩ := mem_processRulesAux_ruleType c cat gn gp isP _ 0 ord hpr
      exact ⟨r, (List.mem_filter.mp hr).2, hty⟩
    · exact ih _ hpc hpr

/-- Every rule of a processed group has a recognized kind discriminant. -/
theorem mem_group_ruleType {g : RuleCollectionGroup} {isP : Bool} {s : Nat}
    {pc : ProcessedRuleCollection} {pr : ProcessedRule}
    (hpc : pc ∈ (RuleProcessor.processRuleCollectionGroup g isP s).processedCollections)
    (hpr : pr ∈ pc.processedRules) :
    pr.ruleType = "NatRule" ∨ pr.ruleType = "NetworkRule" ∨
      pr.ruleType = "ApplicationRule" := by
  simp only [RuleProcessor.processRuleCollectionGroup, List.mem_append] at hpc
  rcases hpc with (hpc | hpc) | hpc
  all_goals
    simp only [RuleProcessor.processRuleCollectionsByType] at hpc
    obtain ⟨r, hr, hty⟩ := mem_processCollectionsAux_ruleType _ _ _ _ _ _ hpc hpr
    rw [hty] at *
    exact ruleType_of_matchesCategory hr

/-- Every emitted group is the processing of some input group at some
counter value. -/
theorem mem_processGroupsAux :
    ∀ (l : List (RuleCollectionGroup × Bool)) (ord : Nat)
      {pg : ProcessedRuleCollectionGroup},
      pg ∈ RuleProcessor.processGroupsAux l ord →
      ∃ (g : RuleCollectionGroup) (isP : Bool) (s : Nat),
        pg = RuleProcessor.processRuleCollectionGroup g isP s := by
  intro l
  induction l with
  | nil => intro ord pg h; simp [RuleProcessor.processGroupsAux] at h
  | cons gb rest ih =>
    intro ord pg h
    obtain ⟨g, isParent⟩ := gb
    simp only [RuleProcessor.processGroupsAux, List.mem_cons] at h
    rcases h with h | h
    · exact ⟨g, isParent, ord, h⟩
    · exact ih _ h

/-- Flat output of a group holding one collection with one rule: a NAT rule
is emitted at the starting counter value; a Network or Application rule at
`1`, because the empty earlier bucket resets the counter; an unrecognized
rule is dropped. -/
theorem one_rule_group_flat (n cn : String) (p cp : Int) (r : FirewallRule)
    (isP : Bool) (s : Nat) :
    getAllRulesFlat [RuleProcessor.processRuleCollectionGroup ⟨n, p, [⟨cn, cp, [r]⟩]⟩ isP s] =
      if r.ruleType = "NatRule" then
        [RuleProcessor.mkProcessedRule r 0 ⟨cn, cp, [r]⟩ "DNAT" n p isP s]
      else if r.ruleType = "NetworkRule" then
        [RuleProcessor.mkProcessedRule r 0 ⟨cn, cp, [r]⟩ "Network" n p isP 1]
      else if r.ruleType = "ApplicationRule" then
        [RuleProcessor.mkProcessedRule r 0 ⟨cn, cp, [r]⟩ "Application" n p isP 1]
      else [] := by
  by_cases h1 : r.ruleType = "NatRule" <;>
    by_cases h2 : r.ruleType = "NetworkRule" <;>
      by_cases h3 : r.ruleType = "ApplicationRule" <;>
  simp [getAllRulesFlat, RuleProcessor.processRuleCollectionGroup,
    RuleProcessor.processRuleCollectionsByType, RuleProcessor.processCollectionsAux,
    RuleProcessor.processRulesAux, RuleProcessor.getMaxProcessingOrderFromCollections,
    RuleProcessor.matchesCategory, RuleProcessor.mkProcessedRule,
    List.insertionSort, List.orderedInsert, h1, h2, h3]

/-- Maximum emitted order of a group holding one collection with one rule. -/
theorem one_rule_group_max (n cn : String) (p cp : Int) (r : FirewallRule)
    (isP : Bool) (s : Nat) :
    RuleProcessor.getMaxProcessingOrder
        (RuleProcessor.processRuleCollectionGroup ⟨n, p, [⟨cn, cp, [r]⟩]⟩ isP s) =
      if r.ruleType = "NatRule" then s
      else if r.ruleType = "NetworkRule" then 1
      else if r.ruleType = "ApplicationRule" then 1
      else 0 := by
  by_cases h1 : r.ruleType = "NatRule" <;>
    by_cases h2 : r.ruleType = "NetworkRule" <;>
      by_cases h3 : r.ruleType = "ApplicationRule" <;>
  simp [RuleProcessor.getMaxProcessingOrder, RuleProcessor.processRuleCollectionGroup,
    RuleProcessor.processRuleCollectionsByType, RuleProcessor.processCollectionsAux,
    RuleProcessor.processRulesAux, RuleProcessor.getMaxProcessingOrderFromCollections,
    RuleProcessor.matchesCategory, RuleProcessor.mkProcessedRule,
    List.insertionSort, List.orderedInsert, h1, h2, h3]

/-- The emission-order flattening distributes over group cons. -/
theorem getAllRulesFlat_cons (a : ProcessedRuleCollectionGroup)
    (rest : List ProcessedRuleCollectionGroup) :
    getAllRulesFlat (a :: rest) = getAllRulesFlat [a] ++ getAllRulesFlat rest := by
  simp [getAllRulesFlat]

/-!
## Claim theorems
-/

/-- C1: the claim states that `processingOrder` values are unique and
strictly increasing in emission order, produced by a single monotonic
never-reused global counter starting at 1. Evaluating the embedded
`processFirewallPolicy` on the scenario-B policy refutes this: the emitted
orders are `[1, 2, 3, 4, 1]`. After the low-priority group's empty DNAT
bucket, `getMaxProcessingOrderFromCollections` returns `0` and the counter
resets to `1`, so the final rule reuses order `1` and the sequence is
neither duplicate-free nor strictly increasing. -/
theorem processingOrder_counter_reused :
    emissionOrders (RuleProcessor.processFirewallPolicy scenarioB none) = [1, 2, 3, 4, 1] ∧
    ¬ (emissionOrders (RuleProcessor.processFirewallPolicy scenarioB none)).Nodup ∧
    ¬ List.Pairwise (fun a b => a < b)
        (emissionOrders (RuleProcessor.processFirewallPolicy scenarioB none)) := by
  decide

/-- C2: for the scenario-B policy the embedded engine does emit exactly 5
rules in the order NAT, Network, Network, Application, Network(deny), and
the statistics report DNAT:1, Network:3, Application:1 — but the
`processingOrder` values are `1,2,3,4,1`, not `1..5` as the claim states:
the deny rule of `LowPriorityGroup` receives order `1` because the counter
resets after that group's empty DNAT bucket. -/
theorem scenarioB_processing :
    (getAllRulesFlat (RuleProcessor.processFirewallPolicy scenarioB none)).map
        (fun r => (r.name, r.ruleCategory, r.processingOrder)) =
      [("WebServerNAT", "DNAT", 1), ("AllowWeb", "Network", 2),
       ("AllowDNS", "Network", 3), ("AllowMicrosoft", "Application", 4),
       ("DenyAll", "Network", 1)] ∧
    (RuleProcessor.getProcessingStatistics
        (RuleProcessor.processFirewallPolicy scenarioB none)).rulesByCategoryDNAT = 1 ∧
    (RuleProcessor.getProcessingStatistics
        (RuleProcessor.processFirewallPolicy scenarioB none)).rulesByCategoryNetwork = 3 ∧
    (RuleProcessor.getProcessingStatistics
        (RuleProcessor.processFirewallPolicy scenarioB none)).rulesByCategoryApplication = 1 ∧
    emissionOrders (RuleProcessor.processFirewallPolicy scenarioB none) ≠ [1, 2, 3, 4, 5] := by
  decide

/-- C3: the claim states that within one processed group every DNAT rule's
`processingOrder` is below every Network rule's, which is below every
Application rule's. For a group with two NAT rules and one Application rule
(and no Network rules) the embedded engine emits orders `[1, 2, 1]`: the
empty Network bucket resets the counter, so an Application-category rule of
the same group gets order `1 < 2`, the order of a DNAT rule of that group —
contradicting the claimed precedence (and the function's own documentation
of the DNAT → Network → Application evaluation order). -/
theorem categoryPrecedence_violated :
    (getAllRulesFlat (RuleProcessor.processFirewallPolicy natAppPolicy none)).map
        (fun r => (r.ruleCategory, r.processingOrder)) =
      [("DNAT", 1), ("DNAT", 2), ("Application", 1)] ∧
    ∃ d ∈ getAllRulesFlat (RuleProcessor.processFirewallPolicy natAppPolicy none),
      d.ruleCategory = "DNAT" ∧
      ∃ a ∈ getAllRulesFlat (RuleProcessor.processFirewallPolicy natAppPolicy none),
        a.ruleCategory = "Application" ∧ a.collectionGroupName = d.collectionGroupName ∧
        a.processingOrder < d.processingOrder := by
  decide

/-- C4 (counterexample): the claim states that `processFirewallPolicy`
fails fast on an unrecognized rule kind. The embedded function — like the
source, which has no throw path — completes normally on a policy whose only
rule has kind `"FutureRule"`: it emits the processed group and silently
drops the rule (the `default: return false` branch of the category filter
and the bucket partition exclude it everywhere). -/
theorem unknownKind_silently_skipped :
    getAllRulesFlat (RuleProcessor.processFirewallPolicy unknownKindPolicy none) = [] ∧
    (RuleProcessor.processFirewallPolicy unknownKindPolicy none).length = 1 := by
  decide

/-- C4 (amended): `processFirewallPolicy` never raises; a rule whose kind
discriminant is not one of `NatRule`, `NetworkRule`, `ApplicationRule` is
silently omitted — every rule in the output carries a recognized kind. -/
theorem output_rules_have_recognized_kind (policy : FirewallPolicy)
    (parentPolicy : Option FirewallPolicy) :
    ∀ pr ∈ getAllRulesFlat (RuleProcessor.processFirewallPolicy policy parentPolicy),
      pr.ruleType = "NatRule" ∨ pr.ruleType = "NetworkRule" ∨
        pr.ruleType = "ApplicationRule" := by
  intro pr hpr
  unfold getAllRulesFlat at hpr
  rw [List.mem_flatten] at hpr
  obtain ⟨l, hl, hprl⟩ := hpr
  rw [List.mem_map] at hl
  obtain ⟨pg, hpg, rfl⟩ := hl
  rw [List.mem_flatten] at hprl
  obtain ⟨rl, hrl, hprrl⟩ := hprl
  rw [List.mem_map] at hrl
  obtain ⟨pc, hpc, rfl⟩ := hrl
  simp only [RuleProcessor.processFirewallPolicy] at hpg
  obtain ⟨g, isP, s, rfl⟩ := mem_processGroupsAux _ _ hpg
  exact mem_group_ruleType hpc hprrl

/-- C4 (witness): the amended theorem applied to the minimal policy and its
single emitted rule. -/
theorem output_rules_have_recognized_kind_witness :
    minimalProcessedRule.ruleType = "NatRule" ∨
      minimalProcessedRule.ruleType = "NetworkRule" ∨
      minimalProcessedRule.ruleType = "ApplicationRule" :=
  output_rules_have_recognized_kind minimalPolicy none minimalProcessedRule (by
    rw [show getAllRulesFlat (RuleProcessor.processFirewallPolicy minimalPolicy none) =
      [minimalProcessedRule] from by decide]
    exact List.mem_singleton.mpr rfl)

/-- C5: in conflict detection an empty list on either side of a dimension
is a wildcard and overlaps; a pair is traffic-overlapping exactly when all
four dimensions (source addresses, destination addresses together with
target FQDNs, destination ports, ip protocols) overlap; and a same-kind
pair that is not traffic-overlapping produces no conflict record. -/
theorem trafficOverlap_characterization :
    (∀ arr1 arr2 : List String, RuleAnalyzer.hasArrayOverlap arr1 arr2 = true ↔
      (arr1 = [] ∨ arr2 = [] ∨ ∃ x, x ∈ arr1 ∧ x ∈ arr2)) ∧
    (∀ fp1 fp2 : RuleAnalyzer.RuleFingerprint,
      RuleAnalyzer.hasOverlappingTrafficPattern fp1 fp2 = true ↔
        (RuleAnalyzer.hasArrayOverlap fp1.sourceAddresses fp2.sourceAddresses = true ∧
         RuleAnalyzer.hasArrayOverlap (fp1.destinationAddresses ++ fp1.targetFqdns)
           (fp2.destinationAddresses ++ fp2.targetFqdns) = true ∧
         RuleAnalyzer.hasArrayOverlap fp1.destinationPorts fp2.destinationPorts = true ∧
         RuleAnalyzer.hasArrayOverlap fp1.ipProtocols fp2.ipProtocols = true)) ∧
    (∀ r1 r2 : ProcessedRule,
      r1.ruleType = r2.ruleType →
      RuleAnalyzer.hasOverlappingTrafficPattern (RuleAnalyzer.generateRuleFingerprint r1)
        (RuleAnalyzer.generateRuleFingerprint r2) = false →
      RuleAnalyzer.detectConflictBetweenRules r1 r2 = none) := by
  refine ⟨fun arr1 arr2 => ?_, fun fp1 fp2 => ?_, fun r1 r2 hk hov => ?_⟩
  · simp [RuleAnalyzer.hasArrayOverlap, List.isEmpty_iff, List.any_eq_true]
    tauto
  · simp [RuleAnalyzer.hasOverlappingTrafficPattern, Bool.and_eq_true, and_assoc]
  · simp [RuleAnalyzer.detectConflictBetweenRules, hk, hov]

/-- C5 (witness): two same-kind Network rules with disjoint non-empty
source addresses yield no conflict record. -/
theorem trafficOverlap_characterization_witness :
    RuleAnalyzer.detectConflictBetweenRules disjointRule1 disjointRule2 = none :=
  trafficOverlap_characterization.2.2 disjointRule1 disjointRule2 (by decide) (by decide)

/-- C6 (counterexample): the claim requires `priority_conflict` to be
emitted only when the two fingerprints are exactly equal. The pair
`c6rule1` / `c6rule2`, whose normalized source lists `["a","a","b"]` and
`["a","b","b"]` have equal length and mutual membership without being
equal, is reported as `priority_conflict` although the fingerprints
differ. -/
theorem priorityConflict_without_equal_fingerprints :
    RuleAnalyzer.detectConflictBetweenRules c6rule1 c6rule2 =
      some ("priority_conflict", "medium") ∧
    RuleAnalyzer.generateRuleFingerprint c6rule1 ≠
      RuleAnalyzer.generateRuleFingerprint c6rule2 := by
  decide

/-- C6 (amended): for a traffic-overlapping same-kind pair not reported as
`allow_deny_conflict`, `priority_conflict` with severity medium is emitted
exactly when the earlier rule's `processingOrder` is strictly smaller and
the five normalized traffic lists are pairwise `arraysEqual` (equal length
and mutual membership — which coincides with exact fingerprint equality
only for duplicate-free lists); every other such pair is reported as
`overlapping_rules` with severity low; and the pair scan emits at most one
conflict record per unordered pair. -/
theorem priorityConflict_characterization :
    (∀ r1 r2 : ProcessedRule,
      r1.ruleType = r2.ruleType →
      RuleAnalyzer.hasOverlappingTrafficPattern (RuleAnalyzer.generateRuleFingerprint r1)
        (RuleAnalyzer.generateRuleFingerprint r2) = true →
      RuleAnalyzer.detectConflictBetweenRules r1 r2 ≠ some ("allow_deny_conflict", "high") →
      ((RuleAnalyzer.detectConflictBetweenRules r1 r2 = some ("priority_conflict", "medium") ↔
          (r1.processingOrder < r2.processingOrder ∧
           RuleAnalyzer.areTrafficPatternsIdentical (RuleAnalyzer.generateRuleFingerprint r1)
             (RuleAnalyzer.generateRuleFingerprint r2) = true)) ∧
        (RuleAnalyzer.detectConflictBetweenRules r1 r2 = some ("overlapping_rules", "low") ↔
          ¬ (r1.processingOrder < r2.processingOrder ∧
             RuleAnalyzer.areTrafficPatternsIdentical (RuleAnalyzer.generateRuleFingerprint r1)
               (RuleAnalyzer.generateRuleFingerprint r2) = true)))) ∧
    (∀ rules : List ProcessedRule,
      (RuleAnalyzer.findRuleConflicts rules).length ≤ rules.length.choose 2) := by
  constructor
  · intro r1 r2 hk hov hnotad
    by_cases hact : RuleAnalyzer.getRuleAction r1 = RuleAnalyzer.getRuleAction r2
    · by_cases hlt : r1.processingOrder < r2.processingOrder
      · by_cases hid : RuleAnalyzer.areTrafficPatternsIdentical
            (RuleAnalyzer.generateRuleFingerprint r1)
            (RuleAnalyzer.generateRuleFingerprint r2) = true
        · simp [RuleAnalyzer.detectConflictBetweenRules, hk, hov, hact, hlt, hid]
        · simp [RuleAnalyzer.detectConflictBetweenRules, hk, hov, hact, hlt, hid]
      · simp [RuleAnalyzer.detectConflictBetweenRules, hk, hov, hact, hlt]
    · by_cases hnet : (r1.ruleType == "NetworkRule" || r1.ruleType == "ApplicationRule") = true
      · rw [hk] at hnet
        exact absurd
          (by simp [RuleAnalyzer.detectConflictBetweenRules, hk, hov, hact, hnet]) hnotad
      · rw [hk] at hnet
        by_cases hlt : r1.processingOrder < r2.processingOrder
        · by_cases hid : RuleAnalyzer.areTrafficPatternsIdentical
              (RuleAnalyzer.generateRuleFingerprint r1)
              (RuleAnalyzer.generateRuleFingerprint r2) = true
          · simp [RuleAnalyzer.detectConflictBetweenRules, hk, hov, hact, hnet, hlt, hid]
          · simp [RuleAnalyzer.detectConflictBetweenRules, hk, hov, hact, hnet, hlt, hid]
        · simp [RuleAnalyzer.detectConflictBetweenRules, hk, hov, hact, hnet, hlt]
  · intro rules
    simpa [RuleAnalyzer.findRuleConflicts, List.length_insertionSort] using
      conflictScan_length_le
        (List.insertionSort (fun a b => a.processingOrder ≤ b.processingOrder) rules)

/-- C6 (witness): the amended characterization applied to two rules with
identical normalized patterns and increasing order. -/
theorem priorityConflict_characterization_witness :
    RuleAnalyzer.detectConflictBetweenRules disjointRule1 dupRule2 =
      some ("priority_conflict", "medium") :=
  (priorityConflict_characterization.1 disjointRule1 dupRule2 (by decide) (by decide)
    (by decide)).1.mpr (by decide)

/-- C7 (counterexample): the claim states that each destination-port string
of the fingerprint is lower-cased and trimmed, so that two rules whose
fields differ only by case receive identical fingerprints. The source's
`normalizePorts` only trims: the rules `c7rule1` and `c7rule2`, identical
except that the destination port is `"P"` in one and `"p"` in the other,
receive different fingerprints. -/
theorem portNormalization_not_lowercased :
    RuleAnalyzer.normalizePorts [" 80A "] = ["80A"] ∧
    c7rule1.ruleType = c7rule2.ruleType ∧
    c7rule1.destinationPorts = ["P"] ∧ c7rule2.destinationPorts = ["p"] ∧
    c7rule1.sourceAddresses = c7rule2.sourceAddresses ∧
    c7rule1.destinationAddresses = c7rule2.destinationAddresses ∧
    c7rule1.ipProtocols = c7rule2.ipProtocols ∧
    c7rule1.targetFqdns = c7rule2.targetFqdns ∧
    RuleAnalyzer.generateRuleFingerprint c7rule1 ≠
      RuleAnalyzer.generateRuleFingerprint c7rule2 := by
  decide

/-- C7 (amended): the fingerprint lower-cases and trims each address,
protocol and FQDN string but only trims port strings, sorts each list, and
pairs with the rule kind; two same-kind rules whose address, protocol and
FQDN lists differ only by case, surrounding whitespace or order, and whose
port lists differ only by whitespace or order, receive identical
fingerprints. -/
theorem fingerprint_normalization (r1 r2 : ProcessedRule)
    (hkind : r1.ruleType = r2.ruleType)
    (hsa : List.Perm (r1.sourceAddresses.map (fun s => jsTrim (jsToLower s)))
      (r2.sourceAddresses.map (fun s => jsTrim (jsToLower s))))
    (hda : List.Perm (r1.destinationAddresses.map (fun s => jsTrim (jsToLower s)))
      (r2.destinationAddresses.map (fun s => jsTrim (jsToLower s))))
    (hdp : List.Perm (r1.destinationPorts.map jsTrim) (r2.destinationPorts.map jsTrim))
    (hip : List.Perm (r1.ipProtocols.map (fun s => jsTrim (jsToLower s)))
      (r2.ipProtocols.map (fun s => jsTrim (jsToLower s))))
    (hfq : List.Perm (r1.targetFqdns.map (fun s => jsTrim (jsToLower s)))
      (r2.targetFqdns.map (fun s => jsTrim (jsToLower s)))) :
    RuleAnalyzer.generateRuleFingerprint r1 = RuleAnalyzer.generateRuleFingerprint r2 := by
  unfold RuleAnalyzer.generateRuleFingerprint RuleAnalyzer.normalizeAddresses
    RuleAnalyzer.normalizePorts RuleAnalyzer.normalizeProtocols RuleAnalyzer.normalizeFqdns
  rw [hkind, sortStrings_eq_of_perm hsa, sortStrings_eq_of_perm hda,
    sortStrings_eq_of_perm hdp, sortStrings_eq_of_perm hip, sortStrings_eq_of_perm hfq]

/-- C7 (witness): two rules whose source addresses differ by case,
whitespace and order, and whose ports differ by whitespace and order, get
equal fingerprints. -/
theorem fingerprint_normalization_witness :
    RuleAnalyzer.generateRuleFingerprint
        (mkAnalyzerRule "w1" "c" "NetworkRule" 1 ["B ", "a"] [] ["8080", " 80"] ["TCP"] []) =
      RuleAnalyzer.generateRuleFingerprint
        (mkAnalyzerRule "w2" "c" "NetworkRule" 2 ["A", " b"] [] ["80", "8080 "] ["tcp"] []) :=
  fingerprint_normalization
    (mkAnalyzerRule "w1" "c" "NetworkRule" 1 ["B ", "a"] [] ["8080", " 80"] ["TCP"] [])
    (mkAnalyzerRule "w2" "c" "NetworkRule" 2 ["A", " b"] [] ["80", "8080 "] ["tcp"] [])
    rfl (by decide) (by decide) (by decide) (by decide) (by decide)

/-- C8: for a parent and child policy each holding one group with one
collection and one rule, the parent rule's `processingOrder` is at most the
child rule's, for every choice of names, priorities and rule contents. -/
theorem parent_rule_precedes_child_rule
    (pgN pcN cgN ccN : String) (pgP pcP cgP ccP : Int) (pr cr : FirewallRule) :
    ∀ x ∈ getAllRulesFlat (RuleProcessor.processFirewallPolicy
        ⟨[⟨cgN, cgP, [⟨ccN, ccP, [cr]⟩]⟩]⟩
        (some ⟨[⟨pgN, pgP, [⟨pcN, pcP, [pr]⟩]⟩]⟩)),
      x.isParentPolicy = true →
      ∀ y ∈ getAllRulesFlat (RuleProcessor.processFirewallPolicy
          ⟨[⟨cgN, cgP, [⟨ccN, ccP, [cr]⟩]⟩]⟩
          (some ⟨[⟨pgN, pgP, [⟨pcN, pcP, [pr]⟩]⟩]⟩)),
        y.isParentPolicy = false →
        x.processingOrder ≤ y.processingOrder := by
  have hout : RuleProcessor.processFirewallPolicy
      ⟨[⟨cgN, cgP, [⟨ccN, ccP, [cr]⟩]⟩]⟩
      (some ⟨[⟨pgN, pgP, [⟨pcN, pcP, [pr]⟩]⟩]⟩) =
      [RuleProcessor.processRuleCollectionGroup ⟨pgN, pgP, [⟨pcN, pcP, [pr]⟩]⟩ true 1,
       RuleProcessor.processRuleCollectionGroup ⟨cgN, cgP, [⟨ccN, ccP, [cr]⟩]⟩ false
         (RuleProcessor.getMaxProcessingOrder
           (RuleProcessor.processRuleCollectionGroup
             ⟨pgN, pgP, [⟨pcN, pcP, [pr]⟩]⟩ true 1) + 1)] := by
    simp [RuleProcessor.processFirewallPolicy, RuleProcessor.processGroupsAux,
      List.insertionSort, List.orderedInsert, RuleProcessor.groupSortLE]
  intro x hx hxp y hy hyp
  rw [hout, getAllRulesFlat_cons, one_rule_group_flat, one_rule_group_flat,
    one_rule_group_max] at hx hy
  by_cases hp1 : pr.ruleType = "NatRule" <;>
    by_cases hp2 : pr.ruleType = "NetworkRule" <;>
      by_cases hp3 : pr.ruleType = "ApplicationRule" <;>
  by_cases hc1 : cr.ruleType = "NatRule" <;>
    by_cases hc2 : cr.ruleType = "NetworkRule" <;>
      by_cases hc3 : cr.ruleType = "ApplicationRule" <;>
  simp_all [getAllRulesFlat, RuleProcessor.mkProcessedRule] <;>
  rcases hx with rfl | rfl <;>
  rcases hy with rfl | rfl <;>
  simp_all

/-- C8 (witness): the parent-precedence theorem applied to a concrete NAT
parent rule and Network child rule; both end up with order 1. -/
theorem parent_rule_precedes_child_rule_witness :
    c8ParentProcessed.processingOrder ≤ c8ChildProcessed.processingOrder :=
  parent_rule_precedes_child_rule "PG" "PC" "CG" "CC" 100 100 200 200 natRuleB netRuleB1
    c8ParentProcessed
    (by
      rw [show getAllRulesFlat (RuleProcessor.processFirewallPolicy
          ⟨[⟨"CG", 200, [⟨"CC", 200, [netRuleB1]⟩]⟩]⟩
          (some ⟨[⟨"PG", 100, [⟨"PC", 100, [natRuleB]⟩]⟩]⟩)) =
        [c8ParentProcessed, c8ChildProcessed] from by decide]
      simp)
    rfl
    c8ChildProcessed
    (by
      rw [show getAllRulesFlat (RuleProcessor.processFirewallPolicy
          ⟨[⟨"CG", 200, [⟨"CC", 200, [netRuleB1]⟩]⟩]⟩
          (some ⟨[⟨"PG", 100, [⟨"PC", 100, [natRuleB]⟩]⟩]⟩)) =
        [c8ParentProcessed, c8ChildProcessed] from by decide]
      simp)
    rfl

/-- C9: the action of a Network or Application rule is inferred from
substring matching "deny"/"block" in the lowercased rule or collection name
(defaulting to Allow), and every traffic-overlapping pair of Network rules
with different inferred actions is reported as `allow_deny_conflict` with
severity high — both by the pair classifier and by the pair scan. -/
theorem allowDenyConflict_detection :
    (∀ rule : ProcessedRule, RuleAnalyzer.getRuleAction rule =
      if RuleAnalyzer.strIncludes (jsToLower rule.name) "deny" ||
         RuleAnalyzer.strIncludes (jsToLower rule.name) "block" ||
         RuleAnalyzer.strIncludes (jsToLower rule.collectionName) "deny" ||
         RuleAnalyzer.strIncludes (jsToLower rule.collectionName) "block"
      then "Deny" else "Allow") ∧
    (∀ r1 r2 : ProcessedRule,
      r1.ruleType = "NetworkRule" → r2.ruleType = "NetworkRule" →
      RuleAnalyzer.hasOverlappingTrafficPattern (RuleAnalyzer.generateRuleFingerprint r1)
        (RuleAnalyzer.generateRuleFingerprint r2) = true →
      RuleAnalyzer.getRuleAction r1 ≠ RuleAnalyzer.getRuleAction r2 →
      r1.processingOrder ≤ r2.processingOrder →
      RuleAnalyzer.detectConflictBetweenRules r1 r2 = some ("allow_deny_conflict", "high") ∧
      RuleAnalyzer.findRuleConflicts [r1, r2] =
        [{ conflictType := "allow_deny_conflict", primary := r1, conflicting := r2,
           severity := "high" }]) := by
  constructor
  · intro rule
    rfl
  · intro r1 r2 hk1 hk2 hov hact hord
    have hdet : RuleAnalyzer.detectConflictBetweenRules r1 r2 =
        some ("allow_deny_conflict", "high") := by
      simp [RuleAnalyzer.detectConflictBetweenRules, hk1, hk2, hov, hact]
    refine ⟨hdet, ?_⟩
    simp [RuleAnalyzer.findRuleConflicts, List.insertionSort, List.orderedInsert, hord,
      RuleAnalyzer.conflictScan, hdet]

/-- C9 (witness): the `"AllowWeb"` / `"DenyWeb"` pair with identical
addressing is reported as a high-severity allow/deny conflict. -/
theorem allowDenyConflict_detection_witness :
    RuleAnalyzer.detectConflictBetweenRules allowWebRule denyWebRule =
        some ("allow_deny_conflict", "high") ∧
      RuleAnalyzer.findRuleConflicts [allowWebRule, denyWebRule] =
        [{ conflictType := "allow_deny_conflict", primary := allowWebRule,
           conflicting := denyWebRule, severity := "high" }] :=
  allowDenyConflict_detection.2 allowWebRule denyWebRule rfl rfl (by decide) (by decide)
    (by decide)

/-- C10: the statistics returned by `analyzeRules` are consistent with the
lists they accompany: `duplicateGroups` is the number of duplicate groups,
`conflicts` the number of conflict records, `duplicateRules` the sum of the
groups' member counts, every group has at least 2 members (so
`duplicateRules ≥ 2·duplicateGroups`), and `conflictingRules` is the number
of distinct rule ids appearing as primary or conflicting (so
`conflictingRules ≤ 2·conflicts`). -/
theorem analysisStatistics_consistent (groups : List ProcessedRuleCollectionGroup) :
    (RuleAnalyzer.analyzeRules groups).statistics.duplicateGroups =
      (RuleAnalyzer.analyzeRules groups).duplicates.length ∧
    (RuleAnalyzer.analyzeRules groups).statistics.conflicts =
      (RuleAnalyzer.analyzeRules groups).conflicts.length ∧
    (RuleAnalyzer.analyzeRules groups).statistics.duplicateRules =
      ((RuleAnalyzer.analyzeRules groups).duplicates.map (fun g => g.rules.length)).sum ∧
    (∀ g ∈ (RuleAnalyzer.analyzeRules groups).duplicates, 2 ≤ g.rules.length) ∧
    2 * (RuleAnalyzer.analyzeRules groups).statistics.duplicateGroups ≤
      (RuleAnalyzer.analyzeRules groups).statistics.duplicateRules ∧
    (RuleAnalyzer.analyzeRules groups).statistics.conflictingRules =
      ((((RuleAnalyzer.analyzeRules groups).conflicts.map (fun c => c.primary.id)) ++
        ((RuleAnalyzer.analyzeRules groups).conflicts.map
          (fun c => c.conflicting.id))).toFinset).card ∧
    (RuleAnalyzer.analyzeRules groups).statistics.conflictingRules ≤
      2 * (RuleAnalyzer.analyzeRules groups).statistics.conflicts := by
  refine ⟨rfl, rfl, rfl, ?_, ?_, ?_, ?_⟩
  · intro g hg
    exact two_le_of_mem_findDuplicateRules hg
  · exact two_mul_length_le_sum _ (fun g hg => two_le_of_mem_findDuplicateRules hg)
  · exact (List.card_toFinset _).symm
  · have h1 := List.Sublist.length_le
      (List.dedup_sublist
        (((RuleAnalyzer.analyzeRules groups).conflicts.map (fun c => c.primary.id)) ++
          ((RuleAnalyzer.analyzeRules groups).conflicts.map (fun c => c.conflicting.id))))
    simp only [List.length_append, List.length_map] at h1
    have h2 : (RuleAnalyzer.analyzeRules groups).statistics.conflicts =
      (RuleAnalyzer.analyzeRules groups).conflicts.length := rfl
    have h3 : (RuleAnalyzer.analyzeRules groups).statistics.conflictingRules =
      (((RuleAnalyzer.analyzeRules groups).conflicts.map (fun c => c.primary.id)) ++
        ((RuleAnalyzer.analyzeRules groups).conflicts.map
          (fun c => c.conflicting.id))).dedup.length := rfl
    omega

/-- C10 (witness): the statistics-consistency theorem applied to the
concrete duplicate pair, whose single reported group has two members. -/
theorem analysisStatistics_consistent_witness :
    2 ≤ dupGroupValue.rules.length :=
  (analysisStatistics_consistent [dupGroup]).2.2.2.1 dupGroupValue (by
    rw [show (RuleAnalyzer.analyzeRules [dupGroup]).duplicates = [dupGroupValue] from by decide]
    exact List.mem_singleton.mpr rfl)
